import Mathlib

/-!
Formal model of the storypath proxy server (`src/server.js`): header
sanitization (`buildUpstreamHeaders`), upstream dispatch configuration,
response relay (buffered and streamed), and error translation, together
with theorems about the forwarding behaviour.

Header mappings are modelled as ordered key-value lists, mirroring a JS
object whose values are strings; Node normalizes inbound header names to
lowercase before the handler sees them.
-/

set_option autoImplicit false

namespace Proxy

/-! ### Header mappings and JS value helpers -/

/-- A header mapping: ordered key-value pairs, as in a JS object. -/
abbrev HeaderMap := List (String × String)

/-- Header lookup, JS property access `m[k]` (`none` plays `undefined`). -/
def hmGet (m : HeaderMap) (k : String) : Option String :=
  (m.find? (fun p => p.1 == k)).map (fun p => p.2)

/-- JS `delete m[k]`: removes the entry (entries) whose key is exactly `k`. -/
def hmDelete (m : HeaderMap) (k : String) : HeaderMap :=
  m.filter (fun p => p.1 != k)

/-- JS assignment `m[k] = v`: overwrite in place if the key exists, else append. -/
def hmSet (m : HeaderMap) (k v : String) : HeaderMap :=
  if (hmGet m k).isSome then m.map (fun p => if p.1 == k then (k, v) else p)
  else m ++ [(k, v)]

/-- JS `x || d` where `x` is an optional string (`undefined` and `""` are falsy). -/
def jsOr (x : Option String) (d : String) : String :=
  match x with
  | none => d
  | some s => if s == "" then d else s

/-- JS `!x` for an optional string value. -/
def jsFalsyStr (x : Option String) : Bool :=
  match x with
  | none => true
  | some s => s == ""

/-- Lowercasing of a string, computed structurally over its characters
(evaluates in the kernel, unlike `String.toLower`). -/
def lowerStr (s : String) : String :=
  ⟨s.data.map Char.toLower⟩

/-- The deny-list of `src/server.js` (the `hopByHop` array inside
`buildUpstreamHeaders`). -/
def hopByHop : List String :=
  ["authorization", "content-type", "host", "connection", "keep-alive",
   "proxy-connection", "transfer-encoding", "upgrade", "te", "trailers",
   "proxy-authorization", "proxy-authenticate", "content-length"]

/-- Function `buildUpstreamHeaders(incoming)` of `src/server.js`: copy the
incoming headers, delete every deny-listed key, default the content type,
and re-add the caller's authorization value (empty string when absent). -/
def buildUpstreamHeaders (incoming : HeaderMap) : HeaderMap :=
  let headers := incoming
  let headers := hopByHop.foldl hmDelete headers
  let headers :=
    if jsFalsyStr (hmGet headers "content-type") then
      hmSet headers "content-type" "application/json"
    else headers
  hmSet headers "authorization" (jsOr (hmGet incoming "authorization") "")

/-! ### JSON-like values -/

/-- A JSON-like JS value, as carried by request and response bodies. -/
inductive JsValue where
  | null
  | bool (b : Bool)
  | num (n : Int)
  | str (s : String)
  | arr (elems : List JsValue)
  | obj (fields : List (String × JsValue))

/-- JS truthiness of a value (`null`, `false`, `0` and `""` are falsy;
arrays and objects are always truthy). -/
def jsTruthy : JsValue → Bool
  | .null => false
  | .bool b => b
  | .num n => n != 0
  | .str s => s != ""
  | .arr _ => true
  | .obj _ => true

/-- JS `typeof v === 'object'` (true for objects, arrays and `null`). -/
def isObjectType : JsValue → Bool
  | .null => true
  | .arr _ => true
  | .obj _ => true
  | _ => false

/-- Does the character list `pat` occur at the head of `hay`? -/
def matchesAt : List Char → List Char → Bool
  | [], _ => true
  | _ :: _, [] => false
  | c :: cs, d :: ds => c == d && matchesAt cs ds

/-- Does the character list `hay` contain `pat` as a contiguous run? -/
def hasRun (pat : List Char) : List Char → Bool
  | [] => matchesAt pat []
  | c :: cs => matchesAt pat (c :: cs) || hasRun pat cs

/-- JS `s.includes(pat)`: case-sensitive substring containment. -/
def jsIncludes (s pat : String) : Bool :=
  hasRun pat.data s.data

/-! ### The forwarding handler (`POST /proxy`) -/

/-- An inbound `POST /proxy` request as the handler sees it: the (Node
lowercased) headers and the JSON body parsed by `express.json`. -/
structure InboundRequest where
  headers : HeaderMap
  body : JsValue

/-- Line 50 of `src/server.js`:
`(req.headers.accept || '').includes('text/event-stream')`. -/
def wantsStreamOf (headers : HeaderMap) : Bool :=
  jsIncludes (jsOr (hmGet headers "accept") "") "text/event-stream"

/-- The axios `responseType` option: `'stream'` or `'json'`. -/
inductive ResponseType where
  | stream
  | json
  deriving DecidableEq

/-- The `axiosConfig` object built by the handler. `maxContentLength` and
`maxBodyLength` are optional byte caps, `none` standing for `Infinity`
(no bound). -/
structure AxiosConfig where
  method : String
  url : String
  headers : HeaderMap
  data : JsValue
  timeout : Nat
  responseType : ResponseType
  maxContentLength : Option Nat
  maxBodyLength : Option Nat

/-- Config entry `validateStatus: () => true` of the handler's axios call:
every received HTTP status is accepted as a fulfilled (non-error) response. -/
def validateStatus (_status : Nat) : Bool :=
  true

/-- The `axiosConfig` value constructed by the handler before dispatching. -/
def mkAxiosConfig (targetUrl : String) (req : InboundRequest) : AxiosConfig :=
  { method := "POST"
    url := targetUrl
    headers := buildUpstreamHeaders req.headers
    data := req.body
    timeout := 120000
    responseType := if wantsStreamOf req.headers then .stream else .json
    maxContentLength := none
    maxBodyLength := none }

/-- How an upstream byte stream terminates: a clean `end` event or an
`error` event carrying a message. -/
inductive StreamEnding where
  | clean
  | errored (msg : String)
  deriving DecidableEq

/-- An upstream body stream: the chunks delivered by `data` events, in
order, followed by its terminating event. -/
structure StreamData where
  chunks : List String
  ending : StreamEnding
  deriving DecidableEq

/-- The body of an upstream response: a buffered (JSON-decoded or raw text)
value, or an open byte stream. -/
inductive UpstreamData where
  | val (v : JsValue)
  | stream (s : StreamData)

/-- The `upstream` response object returned by `await axios(axiosConfig)`. -/
structure UpstreamResponse where
  status : Nat
  headers : HeaderMap
  data : UpstreamData

/-- What the handler writes back to the caller as a body. -/
inductive BodyOut where
  /-- `res.json(payload)` of a buffered value. -/
  | json (v : JsValue)
  /-- `res.send(payload)` of a non-object buffered value. -/
  | sent (v : JsValue)
  /-- A piped byte stream: all bytes written before the response ended,
  including any trailing text passed to `res.end`. -/
  | streamed (bytes : String)
  /-- `res.json` applied to a stream handle (only reachable when the
  upstream body is a stream although `responseType` was `'json'`, which the
  axios contract rules out). -/
  | jsonOfStreamHandle

/-- The outbound response finally written to the caller: the status on the
wire at header-flush time, the forwarded headers, and the body. -/
structure OutboundResponse where
  status : Nat
  headers : HeaderMap
  body : BodyOut

/-- Lines 71-75 of `src/server.js`: copy every upstream header except
(case-insensitively) `transfer-encoding`, `content-length`, `connection`. -/
def forwardHeaders (up : HeaderMap) : HeaderMap :=
  up.filter (fun p =>
    !(["transfer-encoding", "content-length", "connection"].contains (lowerStr p.1)))

/-- Lines 79-86 of `src/server.js`: relay a streamed upstream body. The
chunks are piped through; on `end` the response is closed; on `error` the
status is switched to 502 when no bytes were flushed yet (`headersSent` is
false exactly when no chunk was written), and the response is closed with
the trailing text passed to `res.end`. -/
def relayStream (statusSet : Nat) (hdrs : HeaderMap) (s : StreamData) : OutboundResponse :=
  match s.ending with
  | .clean =>
      { status := statusSet, headers := hdrs, body := .streamed (String.join s.chunks) }
  | .errored msg =>
      let headersSent := !s.chunks.isEmpty
      { status := if headersSent then statusSet else 502
        headers := hdrs
        body := .streamed (String.join s.chunks ++ "stream error: " ++ msg) }

/-- The `try` branch of the handler after `await axios` resolved: forward
the filtered headers, mirror the status, then branch on
`wantsStream && upstream.data && typeof upstream.data.pipe === 'function'`. -/
def handleOk (wantsStream : Bool) (upstream : UpstreamResponse) : OutboundResponse :=
  let hdrs := forwardHeaders upstream.headers
  match upstream.data, wantsStream with
  | .stream s, true => relayStream upstream.status hdrs s
  | .stream _, false =>
      { status := upstream.status, headers := hdrs, body := .jsonOfStreamHandle }
  | .val v, _ =>
      if jsTruthy v && isObjectType v then
        { status := upstream.status, headers := hdrs, body := .json v }
      else
        { status := upstream.status, headers := hdrs, body := .sent v }

/-- The `err.response` object of an axios error, when the error carries an
upstream-reported response. -/
structure ErrorResponse where
  status : Nat
  data : JsValue

/-- An axios rejection: a message and, when the upstream reported a
response, that response. -/
structure AxiosError where
  message : String
  response : Option ErrorResponse

/-- The structured fallback body of the catch branch:
`error: 'Upstream request failed', detail: err.message` as a JSON object. -/
def upstreamFailedPayload (detail : String) : JsValue :=
  .obj [("error", .str "Upstream request failed"), ("detail", .str detail)]

/-- Lines 96-100 of `src/server.js`, the catch branch:
`status = err.response?.status || 502`,
`message = err.response?.data || structured fallback`, then
`res.status(status).json(message)`. -/
def handleCatch (err : AxiosError) : OutboundResponse :=
  { status :=
      match err.response with
      | some r => if r.status = 0 then 502 else r.status
      | none => 502
    headers := []
    body := .json
      (match err.response with
       | some r => if jsTruthy r.data then r.data else upstreamFailedPayload err.message
       | none => upstreamFailedPayload err.message) }

/-- The outcome of `await axios(axiosConfig)`: fulfilled with an upstream
response, or rejected with an error. -/
inductive AxiosOutcome where
  | ok (upstream : UpstreamResponse)
  | error (err : AxiosError)

/-- What actually happened on the wire when axios dispatched the call. -/
inductive HttpResult where
  /-- An HTTP response (any status) was received. -/
  | response (r : UpstreamResponse)
  /-- Transport-level failure: connection refused, DNS failure, TLS error,
  timeout. -/
  | transportFailure (e : AxiosError)

/-- Axios delivery semantics under the handler's config: a received HTTP
response is fulfilled exactly when `validateStatus` accepts its status
(here: always), and a transport failure is a rejection. -/
def dispatchOutcome : HttpResult → AxiosOutcome
  | .response r =>
      if validateStatus r.status then .ok r
      else .error { message := "Request failed with status code " ++ toString r.status,
                    response := none }
  | .transportFailure e => .error e

/-- The whole `POST /proxy` handler after body parsing, as a function of
the inbound request and of the outcome of the one upstream dispatch
(`wantsStream` is computed from the request before the dispatch). -/
def handleProxy (req : InboundRequest) (outcome : AxiosOutcome) : OutboundResponse :=
  match outcome with
  | .ok upstream => handleOk (wantsStreamOf req.headers) upstream
  | .error err => handleCatch err

/-! ### Observation helpers used in theorem statements -/

/-- Is the upstream body a stream that errors before delivering any chunk? -/
def streamErroredNoBytes : UpstreamData → Bool
  | .stream ⟨[], .errored _⟩ => true
  | _ => false

/-- The axios contract between `responseType` and the delivered body:
`'stream'` yields a stream handle, `'json'` a buffered value. -/
def dataMatches : ResponseType → UpstreamData → Bool
  | .stream, .stream _ => true
  | .json, .val _ => true
  | _, _ => false

/-- Was the outbound body written in streaming mode? -/
def isStreamedBody : BodyOut → Bool
  | .streamed _ => true
  | _ => false

/-- The bytes of a streamed outbound body, `none` for buffered bodies. -/
def streamedBytes : BodyOut → Option String
  | .streamed b => some b
  | _ => none

/-! ### Body-parser limit and startup configuration -/

/-- Line 8 of `src/server.js`, `express.json({ limit: '10mb' })`: the
byte cap the body parser enforces on inbound request bodies
(`'10mb'` is 10·1024·1024 bytes). -/
def jsonBodyLimitBytes : Nat := 10 * 1024 * 1024

/-- Whether the body parser accepts an inbound request body of `n` bytes:
it rejects (HTTP 413) any body larger than the configured limit. -/
def jsonBodyAccepts (n : Nat) : Bool :=
  n ≤ jsonBodyLimitBytes

/-- The hard-coded default upstream URL of line 11. -/
def defaultTargetUrl : String := "https://api.perplexity.ai/chat/completions"

/-- Line 11: `process.env.TARGET_URL || default`. -/
def resolveTargetUrl (env : Option String) : String :=
  jsOr env defaultTargetUrl

/-- The startup outcome: exit before serving, or serve with a target URL. -/
inductive StartupResult where
  | fatal
  | serving (targetUrl : String)
  deriving DecidableEq

/-- Lines 10-16 and 103 of `src/server.js`: resolve `TARGET_URL`, run the
`if (!TARGET_URL) process.exit(1)` guard, then listen. -/
def startup (env : Option String) : StartupResult :=
  let targetUrl := resolveTargetUrl env
  if targetUrl == "" then .fatal else .serving targetUrl

/-! ### Stream-relay event wiring (for cancellation behaviour) -/

/-- Events that can reach an in-flight streaming relay. -/
inductive RelayEvent where
  | upstreamEnd
  | upstreamError (msg : String)
  | callerDisconnect
  deriving DecidableEq

/-- Actions the relay can take in reaction to an event. `abortUpstream`
stands for destroying or cancelling the upstream request/stream. -/
inductive RelayAction where
  | setStatus (code : Nat)
  | endResponse (trailing : String)
  | abortUpstream
  deriving DecidableEq

/-- The listeners installed by the stream branch (lines 81-86 of
`src/server.js`): `pipe`, plus handlers on the upstream stream's `end` and
`error` events. No listener is attached to the caller's request or
response (no `close`/`aborted` handler), and nothing ever destroys or
cancels the upstream request, so the reaction to a caller disconnect is
empty. -/
def relayReactions (headersSent : Bool) : RelayEvent → List RelayAction
  | .upstreamEnd => [.endResponse ""]
  | .upstreamError msg =>
      (if headersSent then [] else [.setStatus 502]) ++
        [.endResponse ("stream error: " ++ msg)]
  | .callerDisconnect => []

/-! ### Concrete inputs used by witnesses and counterexamples -/

/-- A request asking for server-sent events. -/
def reqSSE : InboundRequest :=
  { headers := [("accept", "text/event-stream"), ("host", "localhost:3000")]
    body := .obj [("stream", .bool true)] }

/-- A request with a plain JSON accept preference. -/
def reqPlain : InboundRequest :=
  { headers := [("accept", "application/json"), ("host", "localhost:3000")]
    body := .obj [("q", .str "hi")] }

/-- An upstream response whose body stream delivers `chunks` and then
errors with `msg`. -/
def streamErrResponse (status : Nat) (hdrs : HeaderMap) (chunks : List String)
    (msg : String) : UpstreamResponse :=
  { status := status
    headers := hdrs
    data := .stream { chunks := chunks, ending := .errored msg } }

/-- An upstream 200 response whose body stream errors after one chunk. -/
def upStreamErr1 : UpstreamResponse :=
  { status := 200
    headers := [("content-type", "text/event-stream")]
    data := .stream { chunks := ["data: a\n\n"], ending := .errored "boom" } }

/-- An upstream 200 response whose body stream errors before any chunk. -/
def upStreamErr0 : UpstreamResponse :=
  { status := 200
    headers := [("content-type", "text/event-stream")]
    data := .stream { chunks := [], ending := .errored "socket hang up" } }

/-- An upstream 200 response with a cleanly completing body stream. -/
def upStreamClean : UpstreamResponse :=
  { status := 200
    headers := [("content-type", "text/event-stream")]
    data := .stream { chunks := ["data: a\n\n", "data: b\n\n"], ending := .clean } }

/-! ### Lemmas about the header-map operations -/

theorem foldl_hmDelete_eq_filter (ks : List String) (m : HeaderMap) :
    ks.foldl hmDelete m = m.filter (fun p => !ks.contains p.1) := by
  induction ks generalizing m with
  | nil => simp
  | cons k ks ih =>
      simp only [List.foldl_cons, ih, hmDelete, List.filter_filter]
      apply List.filter_congr
      intro p _
      by_cases hpk : p.1 = k
      · subst hpk; simp
      · simp [hpk, bne, beq_eq_false_iff_ne, Bool.and_comm]

theorem hmGet_filter_denied (m : HeaderMap) (ks : List String) (k : String)
    (hk : ks.contains k = true) :
    hmGet (m.filter (fun p => !ks.contains p.1)) k = none := by
  rw [hmGet, List.find?_eq_none.2, Option.map_none']
  intro p hp
  rcases List.mem_filter.1 hp with ⟨_, hpk⟩
  intro hbeq
  rw [eq_of_beq hbeq, hk] at hpk
  simp at hpk

theorem hmGet_append_right (m₁ m₂ : HeaderMap) (k : String)
    (h : hmGet m₁ k = none) : hmGet (m₁ ++ m₂) k = hmGet m₂ k := by
  rw [hmGet, List.find?_append]
  rw [hmGet] at h
  cases hf : m₁.find? (fun p => p.1 == k) with
  | none => simp [hmGet]
  | some p => rw [hf] at h; simp at h

theorem hmSet_of_absent (m : HeaderMap) (k v : String)
    (h : hmGet m k = none) : hmSet m k v = m ++ [(k, v)] := by
  rw [hmSet, h]
  simp

/-- Characterization of the sanitizer: delete all deny-listed keys, then
append the content-type default and the (possibly empty) authorization. -/
theorem buildUpstreamHeaders_eq (incoming : HeaderMap) :
    buildUpstreamHeaders incoming =
      incoming.filter (fun p => !hopByHop.contains p.1) ++
        [("content-type", "application/json"),
         ("authorization", jsOr (hmGet incoming "authorization") "")] := by
  rw [buildUpstreamHeaders]
  simp only [foldl_hmDelete_eq_filter]
  have hct : hmGet (incoming.filter (fun p => !hopByHop.contains p.1)) "content-type" = none :=
    hmGet_filter_denied _ _ _ (by decide)
  have hau : hmGet (incoming.filter (fun p => !hopByHop.contains p.1)) "authorization" = none :=
    hmGet_filter_denied _ _ _ (by decide)
  rw [hct]
  rw [if_pos (show jsFalsyStr none = true from rfl)]
  rw [hmSet_of_absent _ _ _ hct]
  rw [hmSet_of_absent _ _ _ (by rw [hmGet_append_right _ _ _ hau]; decide)]
  simp

theorem hmGet_cons (k v k' : String) (m : HeaderMap) :
    hmGet ((k, v) :: m) k' = if (k == k') = true then some v else hmGet m k' := by
  rw [hmGet, List.find?_cons]
  cases h : k == k' <;> simp [h, hmGet]

theorem jsOr_some_default_empty (a : String) : jsOr (some a) "" = a := by
  rw [jsOr]
  by_cases h : a = ""
  · subst h; simp
  · simp [h]

/-- The `authorization` entry of a sanitized header set is the appended one. -/
theorem hmGet_buildUpstreamHeaders_authorization (h : HeaderMap) :
    hmGet (buildUpstreamHeaders h) "authorization" =
      some (jsOr (hmGet h "authorization") "") := by
  rw [buildUpstreamHeaders_eq]
  rw [hmGet_append_right _ _ _ (hmGet_filter_denied _ _ _ (by decide))]
  rw [hmGet_cons, hmGet_cons]
  simp

/-- The `content-type` entry of a sanitized header set is the default. -/
theorem hmGet_buildUpstreamHeaders_contentType (h : HeaderMap) :
    hmGet (buildUpstreamHeaders h) "content-type" = some "application/json" := by
  rw [buildUpstreamHeaders_eq]
  rw [hmGet_append_right _ _ _ (hmGet_filter_denied _ _ _ (by decide))]
  rw [hmGet_cons]
  simp

/-! ### Claim theorems: header sanitization -/

/-- C1: on a header mapping whose keys are already lowercase (Node normalizes
inbound header names), the sanitized set contains no deny-listed key in any
letter-casing apart from the re-added `authorization` and the defaulted
`content-type`, and both of those entries are always present. -/
theorem sanitize_denylist_removed (h : HeaderMap)
    (hlow : ∀ p ∈ h, lowerStr p.1 = p.1) :
    (∀ p ∈ buildUpstreamHeaders h, lowerStr p.1 ∈ hopByHop →
        p.1 = "authorization" ∨ p.1 = "content-type") ∧
    (∃ v, hmGet (buildUpstreamHeaders h) "content-type" = some v) ∧
    (∃ v, hmGet (buildUpstreamHeaders h) "authorization" = some v) := by
  refine ⟨?_, ⟨_, hmGet_buildUpstreamHeaders_contentType h⟩,
    ⟨_, hmGet_buildUpstreamHeaders_authorization h⟩⟩
  intro p hp hmem
  rw [buildUpstreamHeaders_eq] at hp
  rcases List.mem_append.1 hp with hp | hp
  · exfalso
    rcases List.mem_filter.1 hp with ⟨hpm, hpk⟩
    rw [hlow p hpm] at hmem
    simp only [List.elem_eq_mem, List.contains] at hpk
    rw [decide_eq_true hmem] at hpk
    simp at hpk
  · simp only [List.mem_cons, List.not_mem_nil, or_false] at hp
    rcases hp with hp | hp
    · right; rw [hp]
    · left; rw [hp]

/-- C1 witness: the sanitizer theorem applied to a concrete lowercase header
mapping. -/
theorem sanitize_denylist_removed_witness :
    (∀ p ∈ buildUpstreamHeaders
        [("host", "example.com"), ("accept", "text/plain"), ("connection", "keep-alive")],
        lowerStr p.1 ∈ hopByHop → p.1 = "authorization" ∨ p.1 = "content-type") ∧
    (∃ v, hmGet (buildUpstreamHeaders
        [("host", "example.com"), ("accept", "text/plain"), ("connection", "keep-alive")])
        "content-type" = some v) ∧
    (∃ v, hmGet (buildUpstreamHeaders
        [("host", "example.com"), ("accept", "text/plain"), ("connection", "keep-alive")])
        "authorization" = some v) :=
  sanitize_denylist_removed _ (by decide)

/-- C4: sanitizing twice gives the same header set as sanitizing once. -/
theorem sanitize_idempotent (h : HeaderMap) :
    buildUpstreamHeaders (buildUpstreamHeaders h) = buildUpstreamHeaders h := by
  conv_lhs => rw [buildUpstreamHeaders_eq]
  rw [hmGet_buildUpstreamHeaders_authorization, jsOr_some_default_empty]
  rw [buildUpstreamHeaders_eq h]
  rw [List.filter_append, List.filter_filter]
  have h1 : (List.filter (fun p => !hopByHop.contains p.1 && !hopByHop.contains p.1) h) =
      List.filter (fun p => !hopByHop.contains p.1) h := by
    apply List.filter_congr
    intro p _
    rw [Bool.and_self]
  have h2 : (List.filter (fun p => !hopByHop.contains p.1)
      [("content-type", "application/json"),
       ("authorization", jsOr (hmGet h "authorization") "")]) = [] := by
    simp [hopByHop]
  rw [h1, h2, List.append_nil]

/-- C5: the `authorization` entry of the sanitized set is the inbound value
verbatim when one is present, and the empty string when absent. -/
theorem sanitize_authorization_passthrough (h : HeaderMap) :
    (∀ v, hmGet h "authorization" = some v →
        hmGet (buildUpstreamHeaders h) "authorization" = some v) ∧
    (hmGet h "authorization" = none →
        hmGet (buildUpstreamHeaders h) "authorization" = some "") := by
  constructor
  · intro v hv
    rw [hmGet_buildUpstreamHeaders_authorization, hv, jsOr_some_default_empty]
  · intro hv
    rw [hmGet_buildUpstreamHeaders_authorization, hv]
    rfl

/-- C5 witness: the authorization pass-through theorem applied to concrete
header mappings with and without an `authorization` entry. -/
theorem sanitize_authorization_passthrough_witness :
    hmGet (buildUpstreamHeaders [("authorization", "Bearer tok123"), ("host", "example.com")])
        "authorization" = some "Bearer tok123" ∧
    hmGet (buildUpstreamHeaders [("host", "example.com")]) "authorization" = some "" :=
  ⟨(sanitize_authorization_passthrough _).1 "Bearer tok123" (by decide),
   (sanitize_authorization_passthrough _).2 (by decide)⟩

/-! ### Claim theorems: status relay (C2) -/

/-- C2 (amended): every received HTTP response, 4xx/5xx included, is
delivered to the handler as a fulfilled result (never turned into the
catch branch's local error), and the outbound status equals the upstream
status, except that a streamed body erroring before any chunk switches the
written status to 502. -/
theorem upstream_status_relayed (req : InboundRequest) (r : UpstreamResponse) :
    dispatchOutcome (.response r) = .ok r ∧
    (handleProxy req (.ok r)).status =
      (if wantsStreamOf req.headers && streamErroredNoBytes r.data then 502
       else r.status) := by
  constructor
  · rfl
  · rcases r with ⟨status, headers, data⟩
    cases data with
    | val v =>
        cases hw : wantsStreamOf req.headers <;>
          by_cases hv : (jsTruthy v && isObjectType v) = true <;>
            simp [handleProxy, handleOk, streamErroredNoBytes, hw, hv]
    | stream s =>
        rcases s with ⟨chunks, ending⟩
        cases hw : wantsStreamOf req.headers with
        | false => simp [handleProxy, handleOk, streamErroredNoBytes, hw]
        | true =>
            cases ending with
            | clean => simp [handleProxy, handleOk, relayStream, streamErroredNoBytes, hw]
            | errored msg =>
                cases chunks with
                | nil => simp [handleProxy, handleOk, relayStream, streamErroredNoBytes, hw]
                | cons c cs =>
                    simp [handleProxy, handleOk, relayStream, streamErroredNoBytes, hw]

/-- C2 counterexample: a received upstream 200 response whose body stream
errors before any byte is written to the caller gets status 502, not the
upstream's 200. -/
theorem upstream_status_relayed_cex :
    (handleProxy reqSSE (.ok upStreamErr0)).status = 502 ∧
    upStreamErr0.status = 200 := by
  constructor <;> rfl

/-! ### Claim theorems: transport-error translation (C3) -/

/-- C3: a transport-level failure is caught and turned into an ordinary
response: status is the status embedded in the error when one exists
(embedded statuses are nonzero for real HTTP responses), else 502; the body
is the error's payload when a truthy one is present, else the structured
`error`/`detail` JSON object. The handler always produces a response for
an error outcome, so the failure cannot escape the per-request handler. -/
theorem transport_error_recovered (req : InboundRequest) (err : AxiosError) :
    (err.response = none →
        handleProxy req (.error err) =
          { status := 502, headers := [],
            body := .json (upstreamFailedPayload err.message) }) ∧
    (∀ r, err.response = some r → r.status ≠ 0 →
        (handleProxy req (.error err)).status = r.status) ∧
    (∀ r, err.response = some r → jsTruthy r.data = true →
        (handleProxy req (.error err)).body = .json r.data) ∧
    (∀ r, err.response = some r → jsTruthy r.data = false →
        (handleProxy req (.error err)).body =
          .json (upstreamFailedPayload err.message)) := by
  refine ⟨?_, ?_, ?_, ?_⟩
  · intro h
    simp [handleProxy, handleCatch, h]
  · intro r h hs
    simp [handleProxy, handleCatch, h, hs]
  · intro r h ht
    simp [handleProxy, handleCatch, h, ht]
  · intro r h ht
    simp [handleProxy, handleCatch, h, ht]

/-- C3 witness: the transport-error theorem applied to a connection-refused
error without an embedded response, and to an error carrying a 503. -/
theorem transport_error_recovered_witness :
    handleProxy reqPlain
        (.error { message := "connect ECONNREFUSED 10.0.0.1:443", response := none }) =
      { status := 502, headers := [],
        body := .json (upstreamFailedPayload "connect ECONNREFUSED 10.0.0.1:443") } ∧
    (handleProxy reqPlain
        (.error { message := "Request failed",
                  response := some { status := 503, data := .str "overloaded" } })).status
      = 503 :=
  ⟨(transport_error_recovered reqPlain _).1 rfl,
   (transport_error_recovered reqPlain _).2.1 _ rfl (by decide)⟩

/-! ### Claim theorems: response-mode selection (C6) -/

/-- C6: the response mode is decided before the upstream call (it is baked
into the axios config), it is exactly the case-sensitive substring test
`text/event-stream` on the Accept value, it depends on nothing but the
Accept entry, and — given the axios contract tying the delivered body kind
to the requested `responseType` — the relayed body is streamed precisely
when that one pre-call decision said so. -/
theorem stream_mode_decided_once (url : String) (req : InboundRequest)
    (r : UpstreamResponse)
    (hc : dataMatches (mkAxiosConfig url req).responseType r.data = true) :
    (mkAxiosConfig url req).responseType =
      (if wantsStreamOf req.headers then ResponseType.stream else ResponseType.json) ∧
    wantsStreamOf req.headers =
      jsIncludes (jsOr (hmGet req.headers "accept") "") "text/event-stream" ∧
    isStreamedBody (handleProxy req (.ok r)).body = wantsStreamOf req.headers ∧
    (∀ h2 : HeaderMap, hmGet h2 "accept" = hmGet req.headers "accept" →
        wantsStreamOf h2 = wantsStreamOf req.headers) := by
  have hc' : dataMatches (if wantsStreamOf req.headers then ResponseType.stream
      else ResponseType.json) r.data = true := hc
  refine ⟨rfl, rfl, ?_, ?_⟩
  · rcases r with ⟨status, headers, data⟩
    cases hw : wantsStreamOf req.headers with
    | false =>
        rw [hw, if_neg (by simp)] at hc'
        cases data with
        | val v =>
            by_cases hv : (jsTruthy v && isObjectType v) = true <;>
              simp [handleProxy, handleOk, isStreamedBody, hw, hv]
        | stream s => simp [dataMatches] at hc'
    | true =>
        rw [hw, if_pos rfl] at hc'
        cases data with
        | val v => simp [dataMatches] at hc'
        | stream s =>
            rcases s with ⟨chunks, ending⟩
            cases ending <;>
              simp [handleProxy, handleOk, relayStream, isStreamedBody, hw]
  · intro h2 hacc
    rw [wantsStreamOf, wantsStreamOf, hacc]

/-- C6 witness: the mode-selection theorem applied to a concrete SSE
request and a concrete streaming upstream response. -/
theorem stream_mode_decided_once_witness :
    (mkAxiosConfig defaultTargetUrl reqSSE).responseType = ResponseType.stream ∧
    isStreamedBody (handleProxy reqSSE (.ok upStreamClean)).body = true :=
  ⟨((stream_mode_decided_once defaultTargetUrl reqSSE upStreamClean (by decide)).1).trans
      (by decide),
   ((stream_mode_decided_once defaultTargetUrl reqSSE upStreamClean (by decide)).2.2.1).trans
      (by decide)⟩

/-! ### Claim theorems: mid-stream error handling (C7) -/

/-- C7 (amended): on a stream-level error, when bytes were already sent the
already-relayed status and headers stay as they are; when none were sent
the status is switched to 502 before closing. In both cases the response
body is the partial content already flushed followed by the trailing text
`stream error: <message>` that `res.end` writes — not exactly the partial
content alone. -/
theorem stream_error_termination (req : InboundRequest) (status : Nat)
    (hdrs : HeaderMap) (chunks : List String) (msg : String)
    (hw : wantsStreamOf req.headers = true) :
    (handleProxy req (.ok (streamErrResponse status hdrs chunks msg))).headers
      = forwardHeaders hdrs ∧
    (handleProxy req (.ok (streamErrResponse status hdrs chunks msg))).body
      = .streamed (String.join chunks ++ "stream error: " ++ msg) ∧
    (chunks ≠ [] →
      (handleProxy req (.ok (streamErrResponse status hdrs chunks msg))).status
        = status) ∧
    (chunks = [] →
      (handleProxy req (.ok (streamErrResponse status hdrs chunks msg))).status
        = 502) := by
  cases chunks with
  | nil =>
      refine ⟨?_, ?_, ?_, ?_⟩ <;>
        simp [handleProxy, handleOk, relayStream, streamErrResponse, hw]
  | cons c cs =>
      refine ⟨?_, ?_, ?_, ?_⟩ <;>
        simp [handleProxy, handleOk, relayStream, streamErrResponse, hw]

/-- C7 witness: the mid-stream error theorem applied to a 200 upstream
response erroring after one delivered chunk. -/
theorem stream_error_termination_witness :
    (handleProxy reqSSE (.ok upStreamErr1)).status = 200 ∧
    (handleProxy reqSSE (.ok upStreamErr1)).body =
      .streamed (String.join ["data: a\n\n"] ++ "stream error: " ++ "boom") :=
  ⟨(stream_error_termination reqSSE 200 [("content-type", "text/event-stream")]
      ["data: a\n\n"] "boom" (by decide)).2.2.1 (by decide),
   (stream_error_termination reqSSE 200 [("content-type", "text/event-stream")]
      ["data: a\n\n"] "boom" (by decide)).2.1⟩

/-- C7 counterexample: after one chunk was flushed, the code passes
`stream error: boom` to `res.end`, so the caller receives the partial
content plus that trailing text — not exactly the partial content. -/
theorem stream_error_termination_cex :
    streamedBytes (handleProxy reqSSE (.ok upStreamErr1)).body ≠ some "data: a\n\n" ∧
    streamedBytes (handleProxy reqSSE (.ok upStreamErr1)).body =
      some "data: a\n\nstream error: boom" := by
  constructor <;> decide

/-! ### Claim theorems: body-size bounds (C8) -/

/-- C8 counterexample: an inbound request body one byte over 10·1024·1024
bytes is rejected by the `express.json` limit, so the size of the accepted
request body is bounded. -/
theorem body_size_unbounded_cex :
    jsonBodyAccepts 10485761 = false ∧ jsonBodyAccepts 10485760 = true := by
  constructor <;> decide

/-- C8 (amended): the upstream dispatch imposes no bound in either
direction (`maxContentLength` and `maxBodyLength` are `Infinity`), but the
inbound body parser accepts at most `'10mb'` = 10485760 bytes. -/
theorem body_size_limits (url : String) (req : InboundRequest) :
    (mkAxiosConfig url req).maxContentLength = none ∧
    (mkAxiosConfig url req).maxBodyLength = none ∧
    (∀ n : Nat, jsonBodyAccepts n = decide (n ≤ jsonBodyLimitBytes)) ∧
    jsonBodyLimitBytes = 10485760 := by
  refine ⟨rfl, rfl, fun n => rfl, rfl⟩

/-! ### Claim theorems: startup configuration (C9) -/

/-- C9 counterexample: with no `TARGET_URL` in the environment the process
does start serving — the hard-coded default upstream URL is substituted,
and the fatal guard does not fire. -/
theorem startup_without_url_cex :
    startup none = StartupResult.serving defaultTargetUrl ∧
    startup none ≠ StartupResult.fatal := by
  constructor <;> decide

/-- C9 (amended): absence of a `TARGET_URL` environment entry is not fatal:
the resolved upstream URL is never empty (the `||` default fills it in), so
the `if (!TARGET_URL) process.exit(1)` guard never fires and the process
always starts serving with the resolved URL. -/
theorem startup_never_fatal (env : Option String) :
    resolveTargetUrl env ≠ "" ∧
    startup env = StartupResult.serving (resolveTargetUrl env) := by
  have h : resolveTargetUrl env ≠ "" := by
    cases env with
    | none => decide
    | some s =>
        rw [resolveTargetUrl, jsOr]
        by_cases hs : s = ""
        · rw [if_pos (by simp [hs])]
          decide
        · rw [if_neg (by simp [hs])]
          exact hs
  refine ⟨h, ?_⟩
  rw [startup]
  rw [if_neg (by simpa using h)]

/-! ### Claim theorems: caller-disconnect cancellation (C10) -/

/-- C10 (code behaviour at the failing input): the stream relay reacts only
to the upstream stream's `end` and `error` events; on a caller disconnect
it performs no action at all, and no event ever makes it abort the
upstream request/stream — the cancellation the spec requires is absent. -/
theorem caller_disconnect_not_aborted :
    relayReactions true RelayEvent.callerDisconnect = [] ∧
    relayReactions false RelayEvent.callerDisconnect = [] ∧
    (∀ (headersSent : Bool) (ev : RelayEvent),
        RelayAction.abortUpstream ∉ relayReactions headersSent ev) := by
  refine ⟨rfl, rfl, ?_⟩
  intro headersSent ev
  cases ev with
  | upstreamEnd => simp [relayReactions]
  | upstreamError msg => cases headersSent <;> simp [relayReactions]
  | callerDisconnect => simp [relayReactions]

end Proxy
